import Mathlib

/-!
Shallow embedding of the pako-tts job lifecycle subsystem.

Source layout (Go):
- internal/domain job.go: Job record, JobStatus, SetProcessing, SetCompleted,
  SetFailed, UpdateProgress, IsExpired, IsComplete.
- internal/queue/memory (part_010 second half): Queue with a jobs map, a
  bounded pending channel, and a closed flag; Enqueue, Dequeue, GetJob,
  UpdateJob, Close.
- internal/queue/memory worker (part_011): processJob pipeline.
- internal/storage/filesystem (part_010 first half): Store, Retrieve,
  CleanupExpired over a base directory.
- internal/api/handlers jobs (part_004): GetJobResult gating logic.

Modelling conventions:
- time.Time and time.Duration are Int nanoseconds; each call of time.Now()
  inside an operation becomes an explicit argument.
- ProgressPercentage is float64 in Go but only ever holds the integer values
  0, 10, 30, 70, 90, 100, so it is an Int here.
- byte slices are lists of Nats.
- VoiceSettings carries only tuning numbers that no modelled code path ever
  reads; it is an opaque token carried through the pipeline unchanged.
-/

namespace PakoTTS

/-- Nanoseconds in a Go time.Millisecond. -/
def millisecond : Int := 1000000

/-- Nanoseconds in a Go time.Second. -/
def second : Int := 1000000000

/-- Nanoseconds in a Go time.Hour. -/
def hour : Int := 3600 * second

/-- Audio bytes: a Go byte slice, abstracted to a list of naturals. -/
abbrev Bytes := List Nat

/-- JobStatus from internal/domain: queued, processing, completed, failed. -/
inductive JobStatus where
  | queued
  | processing
  | completed
  | failed
deriving DecidableEq, Repr

/-- VoiceSettings: pointer-to-float tuning fields, opaque to every modelled
code path; modelled as a token so that it can be carried and compared. -/
structure VoiceSettings where
  token : Nat
deriving DecidableEq, Repr

/-- Job from internal/domain job.go, field for field.  Times are Int
nanoseconds; optional times are Option Int; progress is Int (see header). -/
structure Job where
  id : String
  status : JobStatus
  text : String
  voiceID : String
  providerName : String
  outputFormat : String
  voiceSettings : Option VoiceSettings
  createdAt : Int
  startedAt : Option Int
  completedAt : Option Int
  progressPercentage : Int
  estimatedCompletionAt : Option Int
  errorMessage : String
  resultPath : String
  expiresAt : Option Int
deriving DecidableEq, Repr

/-- NewJob: fresh job in status queued with progress 0; the uuid the Go code
generates is passed in as the id, time.Now().UTC() as now. -/
def NewJob (id text voiceID providerName outputFormat : String)
    (settings : Option VoiceSettings) (now : Int) : Job :=
  { id := id
    status := .queued
    text := text
    voiceID := voiceID
    providerName := providerName
    outputFormat := outputFormat
    voiceSettings := settings
    createdAt := now
    startedAt := none
    completedAt := none
    progressPercentage := 0
    estimatedCompletionAt := none
    errorMessage := ""
    resultPath := ""
    expiresAt := none }

/-- SetProcessing: status := processing, StartedAt := now. -/
def Job.setProcessing (j : Job) (now : Int) : Job :=
  { j with status := .processing, startedAt := some now }

/-- SetCompleted: status := completed, CompletedAt := now,
ResultPath := resultPath, ExpiresAt := now + retentionHours hours,
ProgressPercentage := 100.  The same now value is the base of both
CompletedAt and ExpiresAt, as in the source. -/
def Job.setCompleted (j : Job) (resultPath : String) (retentionHours : Int)
    (now : Int) : Job :=
  { j with status := .completed
           completedAt := some now
           resultPath := resultPath
           expiresAt := some (now + retentionHours * hour)
           progressPercentage := 100 }

/-- SetFailed: status := failed, CompletedAt := now, ErrorMessage := errMsg.
Progress and ResultPath are untouched. -/
def Job.setFailed (j : Job) (errMsg : String) (now : Int) : Job :=
  { j with status := .failed, completedAt := some now, errorMessage := errMsg }

/-- UpdateProgress: sets ProgressPercentage and EstimatedCompletionAt. -/
def Job.updateProgress (j : Job) (percentage : Int)
    (estimatedCompletion : Option Int) : Job :=
  { j with progressPercentage := percentage
           estimatedCompletionAt := estimatedCompletion }

/-- IsExpired: false when ExpiresAt is nil, otherwise time.Now().After(e),
which is the strict comparison e < now. -/
def Job.isExpired (j : Job) (now : Int) : Bool :=
  match j.expiresAt with
  | none => false
  | some e => decide (e < now)

/-- IsComplete: status is completed or failed. -/
def Job.isComplete (j : Job) : Bool :=
  j.status == .completed || j.status == .failed

/-- Go error values that the modelled operations return. -/
inductive GoError where
  | contextCanceled
  | contextDeadlineExceeded
  | jobNotFound
  | ioError (msg : String)
deriving DecidableEq, Repr

/-! The in-memory Queue (package memory).  The Go struct holds a
map of job id to job, a buffered channel of pending jobs, and a closed flag.
The map is an association list; the channel buffer is a FIFO list together
with its capacity. -/

/-- Lookup in the jobs map (first binding wins, as each key is inserted at
most once and then overwritten in place). -/
def lookupJob : List (String × Job) → String → Option Job
  | [], _ => none
  | (k, v) :: rest, key => if k == key then some v else lookupJob rest key

/-- Insert or overwrite a binding in the jobs map. -/
def insertJob : List (String × Job) → String → Job → List (String × Job)
  | [], key, v => [(key, v)]
  | (k, w) :: rest, key, v =>
    if k == key then (k, v) :: rest else (k, w) :: insertJob rest key v

/-- State of the memory Queue: jobs map, pending channel buffer with its
capacity, and the closed flag. -/
structure QueueState where
  jobs : List (String × Job)
  pending : List Job
  bufferSize : Nat
  closed : Bool
deriving DecidableEq, Repr

/-- NewQueue(bufferSize): empty map, empty buffer, open. -/
def NewQueue (bufferSize : Nat) : QueueState :=
  { jobs := [], pending := [], bufferSize := bufferSize, closed := false }

/-- Which branch of a Go select on a channel operation versus ctx.Done()
fires when BOTH are ready — Go then picks uniformly at random, so the choice
is an oracle.  When only one branch is ready Go takes it and the oracle is
ignored; dequeue encodes that readiness logic itself, while for enqueue the
readiness side conditions appear as hypotheses of the theorems that use a
particular winner. -/
inductive SelectWinner where
  | chanReady
  | ctxDone
deriving DecidableEq, Repr

/-- Outcome of Enqueue: the returned error (if any) plus the queue state
after the call. -/
inductive EnqueueOutcome where
  | ok (s : QueueState)
  | err (e : GoError) (s : QueueState)
deriving DecidableEq, Repr

/-- Enqueue: under the lock, a closed queue returns context.Canceled with
nothing changed; otherwise the job is put into the jobs map FIRST, the lock
is dropped, and only then the select sends on the pending channel or gives
up with ctx.Err() (ctxErrVal).  On the ctxDone branch the map insertion is
not rolled back. -/
def QueueState.enqueue (s : QueueState) (job : Job) (ctxErrVal : GoError)
    (sel : SelectWinner) : EnqueueOutcome :=
  if s.closed then .err .contextCanceled s
  else
    let s1 : QueueState := { s with jobs := insertJob s.jobs job.id job }
    match sel with
    | .chanReady => .ok { s1 with pending := s1.pending ++ [job] }
    | .ctxDone => .err ctxErrVal s1

/-- Outcome of Dequeue, covering the four ways the Go select resolves. -/
inductive DequeueOutcome where
  | got (j : Job) (s : QueueState)
  | closedEmpty (s : QueueState)
  | ctxErr (e : GoError) (s : QueueState)
  | blocked (s : QueueState)
deriving DecidableEq, Repr

/-- Dequeue: a select between a receive on the pending channel and
ctx.Done().  The receive is ready when a buffered value remains (delivered
even after Close — Go drains a closed channel's buffer first) or the channel
is closed, in which case it yields ok = false and Dequeue returns
(nil, nil), the closedEmpty outcome.  The ctx branch is ready when the
context is done and returns (nil, ctx.Err()).  When both branches are ready
Go picks at random: sel says which one fires.  When neither is ready the
call stays blocked in the select. -/
def QueueState.dequeue (s : QueueState) (ctxIsDone : Bool)
    (ctxErrVal : GoError) (sel : SelectWinner) : DequeueOutcome :=
  let recv : DequeueOutcome :=
    match s.pending with
    | job :: rest => .got job { s with pending := rest }
    | [] => .closedEmpty s
  let recvReady : Bool := !s.pending.isEmpty || s.closed
  if recvReady && ctxIsDone then
    match sel with
    | .chanReady => recv
    | .ctxDone => .ctxErr ctxErrVal s
  else if recvReady then recv
  else if ctxIsDone then .ctxErr ctxErrVal s
  else .blocked s

/-- GetJob: map lookup under RLock; ErrJobNotFound when absent. -/
def QueueState.getJob (s : QueueState) (jobID : String) : Except GoError Job :=
  match lookupJob s.jobs jobID with
  | some job => .ok job
  | none => .error .jobNotFound

/-- UpdateJob: under the lock, ErrJobNotFound if the id is absent, otherwise
the stored record is replaced wholesale by the given job. -/
def QueueState.updateJob (s : QueueState) (job : Job) :
    Except GoError QueueState :=
  match lookupJob s.jobs job.id with
  | some _ => .ok { s with jobs := insertJob s.jobs job.id job }
  | none => .error .jobNotFound

/-- DeleteJob: removes the binding; no error when absent. -/
def QueueState.deleteJob (s : QueueState) (jobID : String) : QueueState :=
  { s with jobs := s.jobs.filter (fun kv => kv.1 != jobID) }

/-- Close: marks the queue closed (closing the pending channel); idempotent. -/
def QueueState.close (s : QueueState) : QueueState :=
  { s with closed := true }

/-! The worker pipeline (part_011).  processJob drives one claimed job
through SetProcessing, progress checkpoints 10 / 30 / 70 / 90, the provider
call, the stream drain, the storage write, and the terminal transition,
persisting each step through queue.UpdateJob. -/

/-- SynthesisRequest passed to the provider: text, voice, format, settings. -/
structure SynthesisRequest where
  text : String
  voiceID : String
  outputFormat : String
  settings : Option VoiceSettings
deriving DecidableEq, Repr

/-- SynthesisResult from the provider.  Its Audio field is an io.ReadCloser;
what the worker does with it is a single io.ReadAll, so the stream is
modelled by the outcome of that drain: the bytes, or the I/O error text. -/
structure SynthesisResult where
  audio : Except String Bytes
deriving Repr

/-- estimateDuration: 2 seconds base plus 5 milliseconds per character of
input text (len(job.Text); byte versus rune length is immaterial here). -/
def estimateDuration (textLength : Nat) : Int :=
  2 * second + (textLength : Int) * (5 * millisecond)

/-- Environment of one processJob run: the worker's retention configuration,
the three time.Now() readings it takes, the provider's Synthesize function,
and the storage Store call's outcome as a function of its arguments. -/
structure PipelineEnv where
  retentionHours : Int
  nowStart : Int
  nowEstimateBase : Int
  nowTerminal : Int
  synthesize : SynthesisRequest → Except String SynthesisResult
  store : String → Bytes → String → Except String String

/-- One mid-pipeline UpdateJob call whose error is discarded (the Go source
marks these nolint errcheck): on success the new state is kept and the
written record is appended to the write trace; on failure nothing changes. -/
def applyUpdate (sw : QueueState × List Job) (job : Job) :
    QueueState × List Job :=
  match sw.1.updateJob job with
  | .ok s1 => (s1, sw.2 ++ [job])
  | .error _ => sw

/-- processJob, step for step from the worker source.  Returns the queue
state after the run together with the trace of job records that were
actually written to the registry via UpdateJob, in order.  The first
UpdateJob is error-checked in the source and aborts the run; the later ones
are fire-and-forget and are modelled by applyUpdate. -/
def processJob (s : QueueState) (job : Job) (env : PipelineEnv) :
    QueueState × List Job :=
  let job1 := job.setProcessing env.nowStart
  match s.updateJob job1 with
  | .error _ => (s, [])
  | .ok s1 =>
    let estimatedCompletion :=
      env.nowEstimateBase + estimateDuration job1.text.length
    let job2 := job1.updateProgress 10 (some estimatedCompletion)
    let sw := applyUpdate (s1, [job1]) job2
    let req : SynthesisRequest :=
      { text := job2.text
        voiceID := job2.voiceID
        outputFormat := job2.outputFormat
        settings := job2.voiceSettings }
    let job3 := job2.updateProgress 30 (some estimatedCompletion)
    let sw := applyUpdate sw job3
    match env.synthesize req with
    | .error errMsg =>
      applyUpdate sw (job3.setFailed errMsg env.nowTerminal)
    | .ok result =>
      let job4 := job3.updateProgress 70 (some estimatedCompletion)
      let sw := applyUpdate sw job4
      match result.audio with
      | .error errMsg =>
        applyUpdate sw (job4.setFailed errMsg env.nowTerminal)
      | .ok audioData =>
        let job5 := job4.updateProgress 90 none
        let sw := applyUpdate sw job5
        match env.store job5.id audioData job5.outputFormat with
        | .error errMsg =>
          applyUpdate sw (job5.setFailed errMsg env.nowTerminal)
        | .ok resultPath =>
          applyUpdate sw
            (job5.setCompleted resultPath env.retentionHours env.nowTerminal)

/-! The filesystem storage (package filesystem, part_010).  The base
directory's listing is a list of entries; os.ReadDir order is the list
order.  I/O primitives are assumed to succeed (error returns of WriteFile,
entry.Info and os.Remove are out of this model). -/

/-- One directory entry: name, last-modified time, directory flag, bytes. -/
structure FsEntry where
  name : String
  modTime : Int
  isDir : Bool
  data : Bytes
deriving DecidableEq, Repr

/-- Directory state of the storage base path. -/
abbrev FsState := List FsEntry

/-- os.WriteFile: truncating write — overwrites every entry carrying the
name, otherwise creates the file at the end of the listing. -/
def writeFile (st : FsState) (name : String) (data : Bytes) (now : Int) :
    FsState :=
  if st.any (fun e => e.name == name) then
    st.map (fun e =>
      if e.name == name then
        { e with modTime := now, isDir := false, data := data }
      else e)
  else
    st ++ [{ name := name, modTime := now, isDir := false, data := data }]

/-- The file name a job's audio is stored under: jobID.format. -/
def audioFilename (jobID format : String) : String :=
  jobID ++ "." ++ format

/-- Store(ctx, jobID, audio, format): writes jobID.format under the base
path and returns the full path. -/
def fsStore (basePath : String) (st : FsState) (jobID : String)
    (audio : Bytes) (format : String) (now : Int) : FsState × String :=
  let filename := audioFilename jobID format
  let filePath := basePath ++ "/" ++ filename
  (writeFile st filename audio now, filePath)

/-- os.Open by name: the first entry carrying the name. -/
def findFile : FsState → String → Option FsEntry
  | [], _ => none
  | e :: rest, name => if e.name == name then some e else findFile rest name

/-- Retrieve(ctx, jobID): tries jobID.mp3 then jobID.wav; content type is
audio/mpeg for mp3 and audio/wav for wav; error when neither opens. -/
def fsRetrieve (st : FsState) (jobID : String) :
    Except String (Bytes × String) :=
  match findFile st (audioFilename jobID "mp3") with
  | some e => .ok (e.data, "audio/mpeg")
  | none =>
    match findFile st (audioFilename jobID "wav") with
    | some e => .ok (e.data, "audio/wav")
    | none => .error ("audio file not found for job " ++ jobID)

/-- Loop body of CleanupExpired over the directory listing: directories are
skipped; a file whose ModTime is Before the cutoff (strictly earlier) is
removed and counted; every other file is kept. -/
def cleanupLoop (cutoff : Int) : List FsEntry → List FsEntry × Nat
  | [] => ([], 0)
  | e :: rest =>
    let r := cleanupLoop cutoff rest
    if e.isDir then (e :: r.1, r.2)
    else if e.modTime < cutoff then (r.1, r.2 + 1)
    else (e :: r.1, r.2)

/-- CleanupExpired(ctx, retentionHours): cutoff is
time.Now() − retentionHours hours; returns the surviving listing and the
number of files deleted. -/
def cleanupExpired (st : FsState) (retentionHours : Int) (now : Int) :
    FsState × Nat :=
  cleanupLoop (now - retentionHours * hour) st

/-! The GetJobResult handler (part_004). -/

/-- What GetJobResult writes to the response, by code path.  notComplete is
the ErrJobNotComplete response carrying the current status; resultExpired is
ErrResultExpired from the expiry gate; retrieveFailed is the ErrResultExpired
the handler also writes when storage Retrieve fails; audio streams the bytes
with their content type. -/
inductive JobResultOutcome where
  | jobError (e : GoError)
  | notComplete (currentStatus : JobStatus)
  | resultExpired
  | retrieveFailed
  | audio (data : Bytes) (contentType : String)
deriving DecidableEq, Repr

/-- GetJobResult: look the job up; reject with ErrJobNotComplete unless the
status is completed; then reject with ErrResultExpired when job.IsExpired();
only then consult storage.Retrieve. -/
def getJobResult (q : QueueState) (st : FsState) (jobID : String)
    (now : Int) : JobResultOutcome :=
  match q.getJob jobID with
  | .error e => .jobError e
  | .ok job =>
    if job.status ≠ .completed then .notComplete job.status
    else if job.isExpired now then .resultExpired
    else
      match fsRetrieve st jobID with
      | .error _ => .retrieveFailed
      | .ok (data, contentType) => .audio data contentType

/-! Status ordering used to state the lifecycle invariant. -/

/-- Rank of a status along the queued → processing → terminal order. -/
def statusRank : JobStatus → Nat
  | .queued => 0
  | .processing => 1
  | .completed => 2
  | .failed => 2

/-- One registry write may keep the status or move it strictly forward;
completed and failed share the top rank, so neither may turn into the
other. -/
def StatusStep (a b : JobStatus) : Prop :=
  a = b ∨ statusRank a < statusRank b

instance (a b : JobStatus) : Decidable (StatusStep a b) :=
  inferInstanceAs (Decidable (a = b ∨ statusRank a < statusRank b))

/-! Concrete sample data used to instantiate the theorems below on closed
inputs. -/

/-- Concrete sample job, freshly created. -/
def sampleJob : Job :=
  NewJob "job-1" "hello world" "voice-1" "elevenlabs" "mp3" none 0

/-- Sample registry holding sampleJob, with a full one-slot pending buffer. -/
def sampleQueue : QueueState :=
  { jobs := [("job-1", sampleJob)], pending := [sampleJob], bufferSize := 1,
    closed := false }

/-- Pipeline environment whose provider always fails with a fixed message. -/
def synthFailEnv : PipelineEnv :=
  { retentionHours := 24, nowStart := 10, nowEstimateBase := 11,
    nowTerminal := 12,
    synthesize := fun _ => .error "synthesis failed",
    store := fun _ _ _ => .ok "/data/audio/job-1.mp3" }

/-- Pipeline environment in which every step succeeds. -/
def allOkEnv : PipelineEnv :=
  { retentionHours := 24, nowStart := 10, nowEstimateBase := 11,
    nowTerminal := 12,
    synthesize := fun _ => .ok { audio := .ok [1, 2, 3] },
    store := fun _ _ _ => .ok "/data/audio/job-1.mp3" }

/-- The registry record sampleJob ends in after an all-success run. -/
def sampleFinalJob : Job :=
  (((processJob sampleQueue sampleJob allOkEnv).1.getJob
    sampleJob.id).toOption).getD sampleJob

/-- A second queued job, enqueued into the already full sampleQueue. -/
def queuedJob2 : Job :=
  NewJob "job-9" "more text" "voice-1" "elevenlabs" "wav" none 3

/-- A completed job whose expiry time has already passed at now = 100. -/
def expiredJob : Job :=
  { (NewJob "job-2" "text" "voice-1" "elevenlabs" "mp3" none 0) with
      status := .completed, completedAt := some 50,
      resultPath := "/data/audio/job-2.mp3", expiresAt := some 50,
      progressPercentage := 100 }

/-- Registry holding the expired completed job. -/
def resultQueue : QueueState :=
  { jobs := [("job-2", expiredJob)], pending := [], bufferSize := 4,
    closed := false }

/-! Field computation lemmas for the Job transitions; all are definitional. -/

@[simp] theorem Job.setProcessing_id (j : Job) (t : Int) :
    (j.setProcessing t).id = j.id := rfl

@[simp] theorem Job.setProcessing_status (j : Job) (t : Int) :
    (j.setProcessing t).status = .processing := rfl

@[simp] theorem Job.setProcessing_text (j : Job) (t : Int) :
    (j.setProcessing t).text = j.text := rfl

@[simp] theorem Job.setProcessing_voiceID (j : Job) (t : Int) :
    (j.setProcessing t).voiceID = j.voiceID := rfl

@[simp] theorem Job.setProcessing_outputFormat (j : Job) (t : Int) :
    (j.setProcessing t).outputFormat = j.outputFormat := rfl

@[simp] theorem Job.setProcessing_voiceSettings (j : Job) (t : Int) :
    (j.setProcessing t).voiceSettings = j.voiceSettings := rfl

@[simp] theorem Job.setProcessing_progress (j : Job) (t : Int) :
    (j.setProcessing t).progressPercentage = j.progressPercentage := rfl

@[simp] theorem Job.setProcessing_errorMessage (j : Job) (t : Int) :
    (j.setProcessing t).errorMessage = j.errorMessage := rfl

@[simp] theorem Job.setProcessing_resultPath (j : Job) (t : Int) :
    (j.setProcessing t).resultPath = j.resultPath := rfl

@[simp] theorem Job.updateProgress_id (j : Job) (p : Int) (e : Option Int) :
    (j.updateProgress p e).id = j.id := rfl

@[simp] theorem Job.updateProgress_status (j : Job) (p : Int) (e : Option Int) :
    (j.updateProgress p e).status = j.status := rfl

@[simp] theorem Job.updateProgress_text (j : Job) (p : Int) (e : Option Int) :
    (j.updateProgress p e).text = j.text := rfl

@[simp] theorem Job.updateProgress_voiceID (j : Job) (p : Int) (e : Option Int) :
    (j.updateProgress p e).voiceID = j.voiceID := rfl

@[simp] theorem Job.updateProgress_outputFormat (j : Job) (p : Int)
    (e : Option Int) : (j.updateProgress p e).outputFormat = j.outputFormat :=
  rfl

@[simp] theorem Job.updateProgress_voiceSettings (j : Job) (p : Int)
    (e : Option Int) : (j.updateProgress p e).voiceSettings = j.voiceSettings :=
  rfl

@[simp] theorem Job.updateProgress_progress (j : Job) (p : Int)
    (e : Option Int) : (j.updateProgress p e).progressPercentage = p := rfl

@[simp] theorem Job.updateProgress_errorMessage (j : Job) (p : Int)
    (e : Option Int) : (j.updateProgress p e).errorMessage = j.errorMessage :=
  rfl

@[simp] theorem Job.updateProgress_resultPath (j : Job) (p : Int)
    (e : Option Int) : (j.updateProgress p e).resultPath = j.resultPath := rfl

@[simp] theorem Job.setFailed_id (j : Job) (m : String) (t : Int) :
    (j.setFailed m t).id = j.id := rfl

@[simp] theorem Job.setFailed_status (j : Job) (m : String) (t : Int) :
    (j.setFailed m t).status = .failed := rfl

@[simp] theorem Job.setFailed_progress (j : Job) (m : String) (t : Int) :
    (j.setFailed m t).progressPercentage = j.progressPercentage := rfl

@[simp] theorem Job.setFailed_errorMessage (j : Job) (m : String) (t : Int) :
    (j.setFailed m t).errorMessage = m := rfl

@[simp] theorem Job.setFailed_resultPath (j : Job) (m : String) (t : Int) :
    (j.setFailed m t).resultPath = j.resultPath := rfl

@[simp] theorem Job.setCompleted_id (j : Job) (p : String) (r t : Int) :
    (j.setCompleted p r t).id = j.id := rfl

@[simp] theorem Job.setCompleted_status (j : Job) (p : String) (r t : Int) :
    (j.setCompleted p r t).status = .completed := rfl

@[simp] theorem Job.setCompleted_progress (j : Job) (p : String) (r t : Int) :
    (j.setCompleted p r t).progressPercentage = 100 := rfl

@[simp] theorem Job.setCompleted_errorMessage (j : Job) (p : String)
    (r t : Int) : (j.setCompleted p r t).errorMessage = j.errorMessage := rfl

@[simp] theorem Job.setCompleted_resultPath (j : Job) (p : String) (r t : Int) :
    (j.setCompleted p r t).resultPath = p := rfl

@[simp] theorem Job.setCompleted_completedAt (j : Job) (p : String)
    (r t : Int) : (j.setCompleted p r t).completedAt = some t := rfl

@[simp] theorem Job.setCompleted_expiresAt (j : Job) (p : String) (r t : Int) :
    (j.setCompleted p r t).expiresAt = some (t + r * hour) := rfl

/-! Jobs-map lemmas. -/

@[simp] theorem lookupJob_insertJob_self (m : List (String × Job)) (k : String)
    (v : Job) : lookupJob (insertJob m k v) k = some v := by
  induction m with
  | nil => simp [insertJob, lookupJob]
  | cons kv rest ih =>
    obtain ⟨k1, w⟩ := kv
    by_cases h : k1 = k
    · simp [insertJob, lookupJob, h]
    · simp [insertJob, lookupJob, h, ih]

/-- UpdateJob succeeds precisely by replacing the stored binding when the id
is present. -/
theorem updateJob_of_mem (s : QueueState) (j : Job) (w : Job)
    (h : lookupJob s.jobs j.id = some w) :
    s.updateJob j = .ok { s with jobs := insertJob s.jobs j.id j } := by
  unfold QueueState.updateJob
  rw [h]

/-- A fire-and-forget UpdateJob lands whenever the id is present. -/
theorem applyUpdate_of_mem (s : QueueState) (tr : List Job) (j : Job) (w : Job)
    (h : lookupJob s.jobs j.id = some w) :
    applyUpdate (s, tr) j =
      ({ s with jobs := insertJob s.jobs j.id j }, tr ++ [j]) := by
  unfold applyUpdate
  rw [updateJob_of_mem s j w h]

/-! Characterization of each processJob branch: the registry record the job
ends in and the statuses of the records written, in order. -/

/-- When the job id is absent from the registry the first persist fails and
processJob abandons the run, writing nothing. -/
theorem processJob_run_noJob (s : QueueState) (job : Job) (env : PipelineEnv)
    (hnone : lookupJob s.jobs job.id = none) :
    processJob s job env = (s, []) := by
  unfold processJob QueueState.updateJob
  simp [hnone]

/-- Provider failure branch: the job lands in the registry as the 30%-record
marked failed with the provider's message, after writes with statuses
processing, processing, processing, failed. -/
theorem processJob_run_synthErr (s : QueueState) (job : Job)
    (env : PipelineEnv) (w : Job) (m : String)
    (hmem : lookupJob s.jobs job.id = some w)
    (hsynth : env.synthesize
        { text := job.text, voiceID := job.voiceID,
          outputFormat := job.outputFormat,
          settings := job.voiceSettings } = .error m) :
    (processJob s job env).1.getJob job.id =
      .ok ((((job.setProcessing env.nowStart).updateProgress 10
          (some (env.nowEstimateBase +
            estimateDuration job.text.length))).updateProgress 30
          (some (env.nowEstimateBase +
            estimateDuration job.text.length))).setFailed m
          env.nowTerminal) ∧
    (processJob s job env).2.map Job.status =
      [.processing, .processing, .processing, .failed] := by
  simp [processJob, QueueState.updateJob, applyUpdate, QueueState.getJob,
    hmem, hsynth]

/-- Stream-drain failure branch: the job lands as the 70%-record marked
failed with the I/O message, after writes with statuses processing ×4,
failed. -/
theorem processJob_run_readErr (s : QueueState) (job : Job)
    (env : PipelineEnv) (w : Job) (result : SynthesisResult) (m : String)
    (hmem : lookupJob s.jobs job.id = some w)
    (hsynth : env.synthesize
        { text := job.text, voiceID := job.voiceID,
          outputFormat := job.outputFormat,
          settings := job.voiceSettings } = .ok result)
    (hau : result.audio = .error m) :
    (processJob s job env).1.getJob job.id =
      .ok (((((job.setProcessing env.nowStart).updateProgress 10
          (some (env.nowEstimateBase +
            estimateDuration job.text.length))).updateProgress 30
          (some (env.nowEstimateBase +
            estimateDuration job.text.length))).updateProgress 70
          (some (env.nowEstimateBase +
            estimateDuration job.text.length))).setFailed m
          env.nowTerminal) ∧
    (processJob s job env).2.map Job.status =
      [.processing, .processing, .processing, .processing, .failed] := by
  simp [processJob, QueueState.updateJob, applyUpdate, QueueState.getJob,
    hmem, hsynth, hau]

/-- Storage failure branch: the job lands as the 90%-record marked failed
with the store's message, after writes with statuses processing ×5,
failed. -/
theorem processJob_run_storeErr (s : QueueState) (job : Job)
    (env : PipelineEnv) (w : Job) (result : SynthesisResult)
    (audioData : Bytes) (m : String)
    (hmem : lookupJob s.jobs job.id = some w)
    (hsynth : env.synthesize
        { text := job.text, voiceID := job.voiceID,
          outputFormat := job.outputFormat,
          settings := job.voiceSettings } = .ok result)
    (hau : result.audio = .ok audioData)
    (hst : env.store job.id audioData job.outputFormat = .error m) :
    (processJob s job env).1.getJob job.id =
      .ok ((((((job.setProcessing env.nowStart).updateProgress 10
          (some (env.nowEstimateBase +
            estimateDuration job.text.length))).updateProgress 30
          (some (env.nowEstimateBase +
            estimateDuration job.text.length))).updateProgress 70
          (some (env.nowEstimateBase +
            estimateDuration job.text.length))).updateProgress 90
          none).setFailed m env.nowTerminal) ∧
    (processJob s job env).2.map Job.status =
      [.processing, .processing, .processing, .processing, .processing,
        .failed] := by
  simp [processJob, QueueState.updateJob, applyUpdate, QueueState.getJob,
    hmem, hsynth, hau, hst]

/-- All-success branch: the job lands as the completed record with the
returned result path, after writes with statuses processing ×5,
completed. -/
theorem processJob_run_completed (s : QueueState) (job : Job)
    (env : PipelineEnv) (w : Job) (result : SynthesisResult)
    (audioData : Bytes) (resultPath : String)
    (hmem : lookupJob s.jobs job.id = some w)
    (hsynth : env.synthesize
        { text := job.text, voiceID := job.voiceID,
          outputFormat := job.outputFormat,
          settings := job.voiceSettings } = .ok result)
    (hau : result.audio = .ok audioData)
    (hst : env.store job.id audioData job.outputFormat = .ok resultPath) :
    (processJob s job env).1.getJob job.id =
      .ok ((((((job.setProcessing env.nowStart).updateProgress 10
          (some (env.nowEstimateBase +
            estimateDuration job.text.length))).updateProgress 30
          (some (env.nowEstimateBase +
            estimateDuration job.text.length))).updateProgress 70
          (some (env.nowEstimateBase +
            estimateDuration job.text.length))).updateProgress 90
          none).setCompleted resultPath env.retentionHours env.nowTerminal) ∧
    (processJob s job env).2.map Job.status =
      [.processing, .processing, .processing, .processing, .processing,
        .completed] := by
  simp [processJob, QueueState.updateJob, applyUpdate, QueueState.getJob,
    hmem, hsynth, hau, hst]

/-! Storage lemmas. -/

/-- A truncating overwrite leaves the lookup of the written name pointing at
the freshly written file. -/
theorem findFile_map_overwrite (st : FsState) (n : String) (d : Bytes)
    (t : Int) (hany : st.any (fun e => e.name == n) = true) :
    findFile (st.map (fun e =>
        if e.name == n then { e with modTime := t, isDir := false, data := d }
        else e)) n =
      some { name := n, modTime := t, isDir := false, data := d } := by
  induction st with
  | nil => simp at hany
  | cons e rest ih =>
    by_cases he : e.name = n
    · simp [findFile, he]
    · have he2 : (e.name == n) = false := by simp [he]
      simp only [List.any_cons, he2, Bool.false_or] at hany
      have ih2 := ih hany
      simp only [beq_iff_eq] at ih2
      simp [findFile, he, ih2]

/-- A truncating overwrite of one name leaves lookups of any other name
unchanged. -/
theorem findFile_map_overwrite_ne (st : FsState) (n m : String) (d : Bytes)
    (t : Int) (hnm : m ≠ n) :
    findFile (st.map (fun e =>
        if e.name == n then { e with modTime := t, isDir := false, data := d }
        else e)) m =
      findFile st m := by
  induction st with
  | nil => rfl
  | cons e rest ih =>
    simp only [beq_iff_eq] at ih
    by_cases hem : e.name = m
    · have hen : ¬(e.name = n) := fun h => hnm (hem.symm.trans h)
      simp [findFile, hen, hem, hnm]
    · by_cases hen : e.name = n
      · simp [findFile, hen, hem, Ne.symm hnm, ih]
      · simp [findFile, hen, hem, ih]

/-- A name absent from an appended file leaves the lookup unchanged. -/
theorem findFile_append_single_ne (st : FsState) (v : FsEntry) (m : String)
    (hv : (v.name == m) = false) :
    findFile (st ++ [v]) m = findFile st m := by
  induction st with
  | nil => simp [findFile, hv]
  | cons e rest ih =>
    by_cases he : e.name = m
    · simp [findFile, he]
    · simp [findFile, he, ih]

/-- A listing with no entry of the given name opens nothing under it. -/
theorem findFile_eq_none_of_any_eq_false (st : FsState) (n : String)
    (h : st.any (fun e => e.name == n) = false) : findFile st n = none := by
  induction st with
  | nil => rfl
  | cons e rest ih =>
    simp only [List.any_cons, Bool.or_eq_false_iff] at h
    unfold findFile
    rw [if_neg (by simp [h.1])]
    exact ih h.2

/-- Unfolding equation of findFile on a nonempty listing. -/
theorem findFile_cons (e : FsEntry) (rest : FsState) (n : String) :
    findFile (e :: rest) n =
      if e.name == n then some e else findFile rest n := rfl

/-- When a name is absent from a prefix, lookup skips to the suffix. -/
theorem findFile_append_of_none (st l : FsState) (n : String)
    (h : findFile st n = none) : findFile (st ++ l) n = findFile l n := by
  induction st with
  | nil => rfl
  | cons e rest ih =>
    rw [List.cons_append]
    rw [findFile_cons] at h ⊢
    by_cases he : (e.name == n) = true
    · rw [if_pos he] at h
      exact absurd h (by simp)
    · rw [if_neg he] at h ⊢
      exact ih h

/-- After writeFile of a name, opening that name yields the new file. -/
theorem findFile_writeFile_self (st : FsState) (n : String) (d : Bytes)
    (t : Int) :
    findFile (writeFile st n d t) n =
      some { name := n, modTime := t, isDir := false, data := d } := by
  unfold writeFile
  by_cases hany : st.any (fun e => e.name == n) = true
  · rw [if_pos hany]
    exact findFile_map_overwrite st n d t hany
  · rw [if_neg hany]
    have hf : st.any (fun e => e.name == n) = false := by
      cases hx : st.any (fun e => e.name == n)
      · rfl
      · exact absurd hx hany
    rw [findFile_append_of_none st _ n
      (findFile_eq_none_of_any_eq_false st n hf)]
    simp [findFile]

/-- After writeFile of one name, opening a different name is unaffected. -/
theorem findFile_writeFile_ne (st : FsState) (n m : String) (d : Bytes)
    (t : Int) (hnm : m ≠ n) :
    findFile (writeFile st n d t) m = findFile st m := by
  unfold writeFile
  by_cases hany : st.any (fun e => e.name == n) = true
  · rw [if_pos hany]
    exact findFile_map_overwrite_ne st n m d t hnm
  · rw [if_neg hany]
    exact findFile_append_single_ne st _ m (by simpa using Ne.symm hnm)

/-- The two storage file names of one job differ. -/
theorem audioFilename_mp3_ne_wav (jobID : String) :
    audioFilename jobID "mp3" ≠ audioFilename jobID "wav" := by
  unfold audioFilename
  intro h
  have hd : ∀ s u : String, (s ++ u).data = s.data ++ u.data := fun s u => rfl
  have h2 := congrArg String.data h
  rw [hd, hd] at h2
  exact absurd (List.append_cancel_left h2) (by decide)

/-- The filesystem store never returns an empty location: the path it hands
back always contains the path separator.  This discharges, for the concrete
storage backend, the non-empty-path assumption made about the abstract store
below. -/
theorem fsStore_path_ne_empty (basePath : String) (st : FsState)
    (jobID : String) (audio : Bytes) (format : String) (now : Int) :
    (fsStore basePath st jobID audio format now).2 ≠ "" := by
  intro h
  have h1 : basePath ++ "/" ++ audioFilename jobID format = "" := h
  have hd : ∀ s u : String, (s ++ u).data = s.data ++ u.data := fun s u => rfl
  have h2 := congrArg String.data h1
  rw [hd, hd] at h2
  have h3 := congrArg List.length h2
  simp only [List.length_append, List.length_cons, List.length_nil] at h3
  omega

/-! The claims. -/

/-- Claim C1, counterexample: with a provider whose Synthesize always fails
with the fixed message "synthesis failed", the job's registry record ends
with progress 30, not 70 as the claim states — progress 70 is only persisted
after a successful Synthesize, while 30 is the last checkpoint before the
call. -/
theorem processJob_synthFail_progress_not_70 :
    (((processJob sampleQueue sampleJob synthFailEnv).1.getJob
        "job-1").toOption.map Job.progressPercentage) = some 30 ∧
    ¬ ((((processJob sampleQueue sampleJob synthFailEnv).1.getJob
        "job-1").toOption.map Job.progressPercentage) = some 70) := by
  constructor
  · rfl
  · decide

/-- Claim C1, amended: for every job present in the registry whose pipeline
reaches Synthesize against a provider that always fails with a fixed error
message, the worker leaves the job in status=failed carrying exactly that
message, with progress frozen at 30 (the last checkpoint persisted before
the Synthesize call). -/
theorem processJob_synthFailure_frozen_at_30 (s : QueueState) (job : Job)
    (env : PipelineEnv) (w : Job) (m : String)
    (hmem : lookupJob s.jobs job.id = some w)
    (hsynth : ∀ req, env.synthesize req = .error m) :
    ∃ jf, (processJob s job env).1.getJob job.id = .ok jf ∧
      jf.status = .failed ∧ jf.errorMessage = m ∧
      jf.progressPercentage = 30 := by
  refine ⟨_, (processJob_run_synthErr s job env w m hmem (hsynth _)).1,
    ?_, ?_, ?_⟩ <;> simp

/-- Witness for the amended claim C1 at a concrete queue, job and failing
provider. -/
theorem processJob_synthFailure_frozen_at_30_witness :
    ∃ jf, (processJob sampleQueue sampleJob synthFailEnv).1.getJob
        sampleJob.id = .ok jf ∧
      jf.status = .failed ∧ jf.errorMessage = "synthesis failed" ∧
      jf.progressPercentage = 30 :=
  processJob_synthFailure_frozen_at_30 sampleQueue sampleJob synthFailEnv
    sampleJob "synthesis failed" rfl (fun _ => rfl)

/-- Claim C2: the statuses a worker run writes to the registry, prefixed by
the queued status the job entered with, only ever move forward along
queued → processing → (completed or failed); no write regresses and no write
leaves a terminal status for a different one. -/
theorem processJob_status_writes_monotone (s : QueueState) (job : Job)
    (env : PipelineEnv) (hq : job.status = .queued) :
    List.Chain' StatusStep
      (job.status :: (processJob s job env).2.map Job.status) := by
  rw [hq]
  cases hmem : lookupJob s.jobs job.id with
  | none =>
    rw [processJob_run_noJob s job env hmem]
    simp [StatusStep]
  | some w =>
    cases hsy : env.synthesize
        { text := job.text, voiceID := job.voiceID,
          outputFormat := job.outputFormat,
          settings := job.voiceSettings } with
    | error m =>
      rw [(processJob_run_synthErr s job env w m hmem hsy).2]
      simp [List.chain'_cons, StatusStep, statusRank]
    | ok result =>
      cases hau : result.audio with
      | error m =>
        rw [(processJob_run_readErr s job env w result m hmem hsy hau).2]
        simp [List.chain'_cons, StatusStep, statusRank]
      | ok audioData =>
        cases hst : env.store job.id audioData job.outputFormat with
        | error m =>
          rw [(processJob_run_storeErr s job env w result audioData m
            hmem hsy hau hst).2]
          simp [List.chain'_cons, StatusStep, statusRank]
        | ok resultPath =>
          rw [(processJob_run_completed s job env w result audioData
            resultPath hmem hsy hau hst).2]
          simp [List.chain'_cons, StatusStep, statusRank]

/-- Witness for claim C2 at a concrete queue, job and all-success run. -/
theorem processJob_status_writes_monotone_witness :
    List.Chain' StatusStep
      (sampleJob.status ::
        (processJob sampleQueue sampleJob allOkEnv).2.map Job.status) :=
  processJob_status_writes_monotone sampleQueue sampleJob allOkEnv rfl

/-- Claim C3: the record a worker run leaves in the registry satisfies: if
completed, progress is 100 and the result location is non-empty (given that
the store returns non-empty paths, as the filesystem store does); if failed
with a non-empty provider or I/O error, the error description is non-empty
and the result location is still unset. -/
theorem processJob_terminal_record (s : QueueState) (job : Job)
    (env : PipelineEnv) (jf : Job)
    (hrp : job.resultPath = "")
    (hsynthMsg : ∀ req m, env.synthesize req = .error m → m ≠ "")
    (hreadMsg : ∀ req r m,
      env.synthesize req = .ok r → r.audio = .error m → m ≠ "")
    (hstoreErrMsg : ∀ id a f m, env.store id a f = .error m → m ≠ "")
    (hstorePath : ∀ id a f p, env.store id a f = .ok p → p ≠ "")
    (hjf : (processJob s job env).1.getJob job.id = .ok jf) :
    (jf.status = .completed →
      jf.progressPercentage = 100 ∧ jf.resultPath ≠ "") ∧
    (jf.status = .failed → jf.errorMessage ≠ "" ∧ jf.resultPath = "") := by
  cases hmem : lookupJob s.jobs job.id with
  | none =>
    rw [processJob_run_noJob s job env hmem] at hjf
    unfold QueueState.getJob at hjf
    rw [hmem] at hjf
    exact absurd hjf (by simp)
  | some w =>
    cases hsy : env.synthesize
        { text := job.text, voiceID := job.voiceID,
          outputFormat := job.outputFormat,
          settings := job.voiceSettings } with
    | error m =>
      rw [(processJob_run_synthErr s job env w m hmem hsy).1] at hjf
      injection hjf with hjf
      subst hjf
      refine ⟨fun hc => ?_, fun _ => ⟨?_, ?_⟩⟩
      · simp at hc
      · simpa using hsynthMsg _ m hsy
      · simp [hrp]
    | ok result =>
      cases hau : result.audio with
      | error m =>
        rw [(processJob_run_readErr s job env w result m hmem hsy hau).1]
          at hjf
        injection hjf with hjf
        subst hjf
        refine ⟨fun hc => ?_, fun _ => ⟨?_, ?_⟩⟩
        · simp at hc
        · simpa using hreadMsg _ result m hsy hau
        · simp [hrp]
      | ok audioData =>
        cases hst : env.store job.id audioData job.outputFormat with
        | error m =>
          rw [(processJob_run_storeErr s job env w result audioData m
            hmem hsy hau hst).1] at hjf
          injection hjf with hjf
          subst hjf
          refine ⟨fun hc => ?_, fun _ => ⟨?_, ?_⟩⟩
          · simp at hc
          · simpa using hstoreErrMsg _ _ _ m hst
          · simp [hrp]
        | ok resultPath =>
          rw [(processJob_run_completed s job env w result audioData
            resultPath hmem hsy hau hst).1] at hjf
          injection hjf with hjf
          subst hjf
          refine ⟨fun _ => ⟨?_, ?_⟩, fun hf => ?_⟩
          · simp
          · simpa using hstorePath _ _ _ resultPath hst
          · simp at hf

/-- Witness for claim C3 at a concrete all-success run ending in the
completed record. -/
theorem processJob_terminal_record_witness :
    (sampleFinalJob.status = .completed →
      sampleFinalJob.progressPercentage = 100 ∧
        sampleFinalJob.resultPath ≠ "") ∧
    (sampleFinalJob.status = .failed →
      sampleFinalJob.errorMessage ≠ "" ∧ sampleFinalJob.resultPath = "") := by
  refine processJob_terminal_record sampleQueue sampleJob allOkEnv
    sampleFinalJob rfl ?_ ?_ ?_ ?_ rfl
  · intro req m h
    simp [allOkEnv] at h
  · intro req r m h1 h2
    simp only [allOkEnv] at h1
    injection h1 with h1
    rw [← h1] at h2
    simp at h2
  · intro i a f m h
    simp [allOkEnv] at h
  · intro i a f p h
    simp only [allOkEnv] at h
    injection h with h
    subst h
    decide

/-- Claim C4: SetCompleted stamps CompletedAt with the transition time and
ExpiresAt with exactly that same time plus the retention window. -/
theorem setCompleted_expiry_is_completion_plus_retention (j : Job)
    (resultPath : String) (retentionHours now : Int) :
    (j.setCompleted resultPath retentionHours now).completedAt = some now ∧
    (j.setCompleted resultPath retentionHours now).expiresAt =
      some (now + retentionHours * hour) ∧
    (j.setCompleted resultPath retentionHours now).expiresAt =
      (j.setCompleted resultPath retentionHours now).completedAt.map
        (fun t => t + retentionHours * hour) :=
  ⟨rfl, rfl, rfl⟩

/-- Claim C5: for a found job, GetJobResult rejects a non-completed job with
the not-yet-complete outcome before anything else; rejects a completed but
expired job with the expired outcome whatever the storage holds; and its
outcome is independent of the storage state unless the job is completed and
unexpired — storage is consulted only then. -/
theorem getJobResult_gating (q : QueueState) (st : FsState) (jobID : String)
    (now : Int) (job : Job) (hjob : q.getJob jobID = .ok job) :
    (job.status ≠ .completed →
      getJobResult q st jobID now = .notComplete job.status) ∧
    (job.status = .completed → job.isExpired now = true →
      getJobResult q st jobID now = .resultExpired) ∧
    (job.status ≠ .completed ∨ job.isExpired now = true →
      ∀ st', getJobResult q st jobID now = getJobResult q st' jobID now) := by
  refine ⟨fun hnc => ?_, fun hc he => ?_, fun hgate st' => ?_⟩
  · unfold getJobResult
    rw [hjob]
    simp [hnc]
  · unfold getJobResult
    rw [hjob]
    simp [hc, he]
  · rcases hgate with hnc | he
    · unfold getJobResult
      rw [hjob]
      simp [hnc]
    · unfold getJobResult
      rw [hjob]
      by_cases hc : job.status = .completed
      · simp [hc, he]
      · simp [hc]

/-- Witness for claim C5: a completed job whose expiry already passed yields
the expired outcome against an empty storage. -/
theorem getJobResult_gating_witness :
    getJobResult resultQueue [] "job-2" 100 = .resultExpired :=
  (getJobResult_gating resultQueue [] "job-2" 100 expiredJob rfl).2.1 rfl rfl

/-- Claim C6, counterexample: on a closed drained queue whose caller's
context is already done, the select race can fire the ctx.Done() branch, and
Dequeue then returns (nil, ctx.Err()) — an error — not the claimed
empty-and-no-error outcome. -/
theorem dequeue_closed_empty_ctx_race_errors :
    (NewQueue 2).close.dequeue true .contextCanceled .ctxDone =
      .ctxErr .contextCanceled (NewQueue 2).close ∧
    ¬ ((NewQueue 2).close.dequeue true .contextCanceled .ctxDone =
      .closedEmpty (NewQueue 2).close) := by
  constructor
  · rfl
  · decide

/-- Claim C6, amended: Dequeue on a closed queue whose pending buffer is
drained returns the empty outcome — nil job and nil error — whenever the
select resolves to the channel receive; in particular always when the
caller's context is not done, since the receive is then the only ready
branch. -/
theorem dequeue_closed_empty_recv (s : QueueState) (ctxIsDone : Bool)
    (ctxErrVal : GoError) (sel : SelectWinner) (hclosed : s.closed = true)
    (hempty : s.pending = [])
    (hsel : sel = .chanReady ∨ ctxIsDone = false) :
    s.dequeue ctxIsDone ctxErrVal sel = .closedEmpty s := by
  unfold QueueState.dequeue
  rw [hempty, hclosed]
  rcases hsel with rfl | rfl
  · cases ctxIsDone <;> simp
  · simp

/-- Witness for the amended claim C6 on a freshly closed two-slot queue with
a live context. -/
theorem dequeue_closed_empty_recv_witness :
    (NewQueue 2).close.dequeue false .contextCanceled .chanReady =
      .closedEmpty (NewQueue 2).close :=
  dequeue_closed_empty_recv (NewQueue 2).close false .contextCanceled
    .chanReady rfl rfl (Or.inl rfl)

/-- Claim C7: one expiration sweep keeps exactly the directories and the
files modified at or after the cutoff now − retention, removes exactly the
files strictly older than the cutoff, and reports the number removed. -/
theorem cleanupExpired_deletes_exactly_stale (st : FsState)
    (retentionHours now : Int) :
    (cleanupExpired st retentionHours now).1 =
      st.filter (fun e =>
        e.isDir || !decide (e.modTime < now - retentionHours * hour)) ∧
    (cleanupExpired st retentionHours now).2 =
      (st.filter (fun e =>
        !e.isDir && decide (e.modTime < now - retentionHours * hour))).length
    := by
  unfold cleanupExpired
  induction st with
  | nil => exact ⟨rfl, rfl⟩
  | cons e rest ih =>
    unfold cleanupLoop
    cases hd : e.isDir
    · by_cases hm : e.modTime < now - retentionHours * hour
      · simp [List.filter_cons, hd, hm, ih.1, ih.2]
      · simp [List.filter_cons, hd, hm, ih.1, ih.2]
    · simp [List.filter_cons, hd, ih.1, ih.2]

/-- Claim C8: Store then Retrieve round-trips: an mp3 store is read back as
the same bytes with content type audio/mpeg, and, provided no mp3 entry
shadows the job id, a wav store is read back as the same bytes with content
type audio/wav. -/
theorem fsStore_fsRetrieve_roundtrip (basePath : String) (st : FsState)
    (jobID : String) (audio : Bytes) (now : Int)
    (hnoMp3 : findFile st (audioFilename jobID "mp3") = none) :
    fsRetrieve (fsStore basePath st jobID audio "mp3" now).1 jobID =
      .ok (audio, "audio/mpeg") ∧
    fsRetrieve (fsStore basePath st jobID audio "wav" now).1 jobID =
      .ok (audio, "audio/wav") := by
  constructor
  · unfold fsRetrieve fsStore
    rw [findFile_writeFile_self]
  · unfold fsRetrieve fsStore
    rw [findFile_writeFile_ne st (audioFilename jobID "wav")
      (audioFilename jobID "mp3") audio now (audioFilename_mp3_ne_wav jobID),
      hnoMp3, findFile_writeFile_self]

/-- Witness for claim C8 on an empty storage directory. -/
theorem fsStore_fsRetrieve_roundtrip_witness :
    fsRetrieve (fsStore "/data/audio" [] "job-1" [1, 2, 3] "mp3" 5).1
      "job-1" = .ok ([1, 2, 3], "audio/mpeg") ∧
    fsRetrieve (fsStore "/data/audio" [] "job-1" [1, 2, 3] "wav" 5).1
      "job-1" = .ok ([1, 2, 3], "audio/wav") :=
  fsStore_fsRetrieve_roundtrip "/data/audio" [] "job-1" [1, 2, 3] 5 rfl

/-- Claim C10: when an open queue's buffer is full and the caller's context
fires while Enqueue waits for capacity, Enqueue returns the context error,
yet the job is already in the registry: GetJob finds it, still queued. -/
theorem enqueue_ctxDone_job_already_inserted (s : QueueState) (job : Job)
    (ctxErrVal : GoError) (hopen : s.closed = false)
    (hfull : s.bufferSize ≤ s.pending.length) (hq : job.status = .queued) :
    s.enqueue job ctxErrVal .ctxDone =
      .err ctxErrVal { s with jobs := insertJob s.jobs job.id job } ∧
    QueueState.getJob { s with jobs := insertJob s.jobs job.id job } job.id =
      .ok job ∧
    job.status = .queued := by
  refine ⟨?_, ?_, hq⟩
  · unfold QueueState.enqueue
    rw [hopen]
    simp
  · unfold QueueState.getJob
    rw [lookupJob_insertJob_self]

/-- Witness for claim C10: the sample queue has a full one-slot buffer; the
second job is reported failed to enqueue yet is visible as queued. -/
theorem enqueue_ctxDone_job_already_inserted_witness :
    sampleQueue.enqueue queuedJob2 .contextCanceled .ctxDone =
      .err .contextCanceled
        { sampleQueue with
            jobs := insertJob sampleQueue.jobs queuedJob2.id queuedJob2 } ∧
    QueueState.getJob
        { sampleQueue with
            jobs := insertJob sampleQueue.jobs queuedJob2.id queuedJob2 }
        queuedJob2.id = .ok queuedJob2 ∧
    queuedJob2.status = .queued :=
  enqueue_ctxDone_job_already_inserted sampleQueue queuedJob2 .contextCanceled
    rfl (by decide) rfl

end PakoTTS
